import Mathlib

/-!
Shallow embedding of the Deadbugs repository core in Lean 4, over ℚ as the
idealisation of `f64` (transcendental library functions such as `cos` and
`exp` are abstracted as function parameters).  Each definition mirrors the
Rust source file named in its doc comment.
-/

namespace DeadbugsCore

/-! ### Data model (crates/deadbugs_core/src/model.rs)

The file `model.rs` is not part of the provided sources; the shapes below are
modelled from the spec (§3) together with the field accesses appearing in
`ker.rs` and `query.rs`. -/

/-- Modelled from the spec: control-method family,
`family ∈ {Exclusion, Sanitation, HabitatChange, PredatorSupport,
MechanicalKill, LiveCapture, MonitoringOnly}` (§3). -/
inductive ControlFamily
  | Exclusion
  | Sanitation
  | HabitatChange
  | PredatorSupport
  | MechanicalKill
  | LiveCapture
  | MonitoringOnly
deriving DecidableEq, Repr

/-- Modelled from the spec: effectiveness band ∈ {Low, Medium, High} (§3). -/
inductive EffectivenessBand
  | Low
  | Medium
  | High
deriving DecidableEq, Repr

/-- Modelled from the spec: location type; Home and Hospital are the sensitive
locations named by §4.2, other variants are opaque. -/
inductive LocationType
  | Home
  | Hospital
  | Restaurant
  | Farm
  | Other
deriving DecidableEq, Repr

/-- Modelled from the spec: pest species identifier (only equality is used). -/
abbrev PestSpecies := String

/-- Modelled from the spec: a control-method descriptor (§3); fields as
accessed by `ker.rs` and `query.rs` (`m.id`, `m.family`,
`m.uses_disposable_electronics`, `m.generates_persistent_plastic`). -/
structure ControlMethod where
  id : String
  family : ControlFamily
  uses_disposable_electronics : Bool
  generates_persistent_plastic : Bool
  lethal : Bool
  chemical : Bool
deriving DecidableEq, Repr

/-- Modelled from the spec: side-effect flags and waste burden of an outcome
log (§3); `waste_burden` is the string matched by `ker.rs` ("high",
"moderate", or anything else). -/
structure SideEffects where
  pet_incident : Bool
  wildlife_incident : Bool
  human_injury : Bool
  air_quality_concern : Bool
  waste_burden : String
deriving DecidableEq, Repr

/-- Modelled from the spec: the context of an outcome log; only the pest
species is consumed by `query.rs` (`l.context.pest`). -/
structure LogContext where
  pest : PestSpecies
deriving DecidableEq, Repr

/-- Modelled from the spec: one outcome log (§3); fields as accessed by
`ker.rs` and `query.rs`. -/
structure OutcomeLog where
  method_id : String
  context : LogContext
  effectiveness : EffectivenessBand
  side_effects : SideEffects
deriving DecidableEq, Repr

/-- Modelled from the spec: the five risk coordinates, each in [0,1] (§3). -/
structure RiskCoordinates where
  r_pets : ℚ
  r_wildlife : ℚ
  r_waste : ℚ
  r_air : ℚ
  r_human_injury : ℚ
deriving DecidableEq, Repr

/-- Modelled from the spec: `RiskCoordinates::default()` — the derived
`Default` of an all-`f64` struct, all coordinates zero ("If L is empty, all
coordinates are zero", §4.1). -/
def RiskCoordinates.default : RiskCoordinates :=
  { r_pets := 0, r_wildlife := 0, r_waste := 0, r_air := 0, r_human_injury := 0 }

/-- Modelled from the spec: the KER score record (§3). -/
structure KerScore where
  k : ℚ
  e : ℚ
  r : ℚ
  coords : RiskCoordinates
  hard_violation : Bool
deriving DecidableEq, Repr

/-! ### KER scorer (crates/deadbugs_core/src/ker.rs) -/

/-- `clamp01` of `ker.rs` (lines 8–16): `if x < 0.0 {0.0} else if x > 1.0
{1.0} else {x}`. -/
def clamp01 (x : ℚ) : ℚ :=
  if x < 0 then 0 else if x > 1 then 1 else x

/-- `compute_risk_coordinates` of `ker.rs` (lines 19–76). -/
def compute_risk_coordinates (logs : List OutcomeLog) (method : ControlMethod) :
    RiskCoordinates :=
  if logs.isEmpty then RiskCoordinates.default
  else
    let n : ℚ := logs.length
    let pet_events : ℚ := (logs.countP (fun log => log.side_effects.pet_incident))
    let wildlife_events : ℚ := (logs.countP (fun log => log.side_effects.wildlife_incident))
    let human_injury_events : ℚ := (logs.countP (fun log => log.side_effects.human_injury))
    let air_events : ℚ := (logs.countP (fun log => log.side_effects.air_quality_concern))
    let r_pets := clamp01 (pet_events / n)
    let r_wildlife := clamp01 (wildlife_events / n)
    let r_human_injury := clamp01 (human_injury_events / n)
    let r_air := clamp01 (air_events / n)
    let base_waste : ℚ :=
      if method.uses_disposable_electronics || method.generates_persistent_plastic
      then 0.7 else 0.2
    let waste_extra : ℚ := logs.foldl
      (fun acc log =>
        match log.side_effects.waste_burden with
        | "high" => acc + 0.2
        | "moderate" => acc + 0.1
        | _ => acc) 0
    let r_waste := clamp01 (base_waste + waste_extra / n)
    { r_pets := r_pets, r_wildlife := r_wildlife, r_waste := r_waste,
      r_air := r_air, r_human_injury := r_human_injury }

/-- `compute_k` of `ker.rs` (lines 80–115). -/
def compute_k (logs : List OutcomeLog) : ℚ :=
  if logs.isEmpty then 0.1
  else
    let n : ℚ := logs.length
    let high : ℚ := (logs.countP (fun log => log.effectiveness = EffectivenessBand.High))
    let med : ℚ := (logs.countP (fun log => log.effectiveness = EffectivenessBand.Medium))
    let low : ℚ := (logs.countP (fun log => log.effectiveness = EffectivenessBand.Low))
    let ph := high / n
    let pm := med / n
    let pl := low / n
    let variability := ph * (1 - ph) + pm * (1 - pm) + pl * (1 - pl)
    let base : ℚ := if n ≥ 20 then 0.9 else if n ≥ 5 then 0.7 else 0.4
    clamp01 (base * (1 - 0.5 * variability))

/-- `compute_e` of `ker.rs` (lines 118–158). -/
def compute_e (logs : List OutcomeLog) (method : ControlMethod) : ℚ :=
  let base : ℚ :=
    match method.family with
    | ControlFamily.Exclusion => 0.95
    | ControlFamily.Sanitation => 0.93
    | ControlFamily.HabitatChange => 0.9
    | ControlFamily.PredatorSupport => 0.88
    | ControlFamily.MechanicalKill => 0.8
    | ControlFamily.LiveCapture => 0.78
    | ControlFamily.MonitoringOnly => 0.7
  let penalty : ℚ :=
    (if method.uses_disposable_electronics then 0.15 else 0) +
    (if method.generates_persistent_plastic then 0.1 else 0)
  let n : ℚ := logs.length
  if n > 0 then
    let high_or_med : ℚ := (logs.countP (fun log =>
      log.effectiveness = EffectivenessBand.High ∨
      log.effectiveness = EffectivenessBand.Medium))
    let success_frac := high_or_med / n
    let eff_factor := 0.5 + 0.5 * success_frac
    clamp01 (base * eff_factor - penalty)
  else
    clamp01 (base - penalty)

/-- `compute_r` of `ker.rs` (lines 161–176). -/
def compute_r (coords : RiskCoordinates) : ℚ :=
  let w_pets : ℚ := 0.3
  let w_human : ℚ := 0.3
  let w_wildlife : ℚ := 0.2
  let w_waste : ℚ := 0.1
  let w_air : ℚ := 0.1
  clamp01 (w_pets * coords.r_pets + w_human * coords.r_human_injury +
    w_wildlife * coords.r_wildlife + w_waste * coords.r_waste + w_air * coords.r_air)

/-- `score_method` of `ker.rs` (lines 179–197). -/
def score_method (method : ControlMethod) (logs : List OutcomeLog) : KerScore :=
  let coords := compute_risk_coordinates logs method
  let k := compute_k logs
  let e := compute_e logs method
  let r := compute_r coords
  let hard_violation : Bool :=
    decide (coords.r_pets ≥ 1) || decide (coords.r_human_injury ≥ 1) ||
    decide (coords.r_wildlife ≥ 1)
  { k := k, e := e, r := r, coords := coords, hard_violation := hard_violation }

/-! ### Method registry (crates/deadbugs_core/src/query.rs) -/

/-- `MethodRegistry` of `query.rs` (lines 10–13): two append-only
collections. -/
structure MethodRegistry where
  methods : List ControlMethod
  logs : List OutcomeLog

/-- `MethodRegistry::logs_for_method` of `query.rs` (lines 32–38). -/
def logs_for_method (reg : MethodRegistry) (method_id : String)
    (pest : PestSpecies) : List OutcomeLog :=
  reg.logs.filter (fun l =>
    decide (l.method_id = method_id) && decide (l.context.pest = pest))

/-- The sort order of the `sort_by` comparator in `query.rs` (lines 83–91 and
114–122): ascending in `compare b.k a.k` then `compare b.e a.e`, i.e. `a`
precedes `b` when `a.k > b.k`, or `a.k = b.k` and `a.e ≥ b.e` (on ℚ,
`partial_cmp` is total, so the `unwrap_or(Equal)` branches are dead). -/
def rankLE (a b : ControlMethod × KerScore) : Prop :=
  b.2.k < a.2.k ∨ (b.2.k = a.2.k ∧ b.2.e ≤ a.2.e)

instance rankLE.decRel : DecidableRel rankLE := fun a b =>
  decidable_of_iff (b.2.k < a.2.k ∨ (b.2.k = a.2.k ∧ b.2.e ≤ a.2.e)) Iff.rfl

/-- `MethodRegistry::query_safest_methods` of `query.rs` (lines 41–94);
`sort_by` with a total comparator is modelled by a stable insertion sort
under `rankLE`. -/
def query_safest_methods (reg : MethodRegistry) (pest : PestSpecies)
    (location : LocationType) (max_r : ℚ) : List (ControlMethod × KerScore) :=
  List.insertionSort rankLE
    ((((reg.methods.filter (fun m =>
        !decide (m.family = ControlFamily.MonitoringOnly))).map (fun m =>
      let logs := logs_for_method reg m.id pest
      let ker := score_method m logs
      let ker :=
        if m.family = ControlFamily.Exclusion ∨ m.family = ControlFamily.Sanitation
        then { ker with e := min (ker.e + 0.05) 1 }
        else ker
      (m, ker))).filter (fun p =>
      if p.2.hard_violation || decide (p.2.r > max_r) then false
      else
        match location with
        | LocationType.Home | LocationType.Hospital =>
          !(p.1.uses_disposable_electronics || p.1.generates_persistent_plastic)
        | _ => true)))

/-- `MethodRegistry::tier0_exclusion_hygiene` of `query.rs` (lines 97–124);
the `for`/`continue`/push loop is modelled by `filterMap`.  The `location`
argument is accepted but (as in the source) never read. -/
def tier0_exclusion_hygiene (reg : MethodRegistry) (pest : PestSpecies)
    (location : LocationType) : List (ControlMethod × KerScore) :=
  List.insertionSort rankLE
    (reg.methods.filterMap (fun m =>
      if !decide (m.family = ControlFamily.Exclusion ∨
                  m.family = ControlFamily.Sanitation) then none
      else
        let logs := logs_for_method reg m.id pest
        let ker := score_method m logs
        if !ker.hard_violation && decide (ker.r ≤ 0.2) then some (m, ker)
        else none))

end DeadbugsCore

namespace PestKernel

/-! ### Pest-risk simulator (deadbugs-pest-kernel/src/pest_risk_simulator.rs)

`f64` is idealised as ℚ; `f64::cos` and the constant `PI` are abstracted as
the parameters `cosq : ℚ → ℚ` and `piq : ℚ`. -/

/-- `PestContext` of `pest_risk_simulator.rs` (lines 4–14). -/
structure PestContext where
  structure_type : String
  climate_band : String
  human_proximity : ℚ
  animal_proximity : ℚ
  food_availability : ℚ
  water_availability : ℚ
  harborage_quality : ℚ
deriving DecidableEq

/-- `PestSpeciesModel` of `pest_risk_simulator.rs` (lines 17–32). -/
structure PestSpeciesModel where
  species_id : String
  base_arrival_rate : ℚ
  base_repro_rate : ℚ
  seasonality_amp : ℚ
  seasonality_phase : ℚ
  damage_sensitivity : ℚ
  eco_sensitivity : ℚ
  abundance_hard_limit : ℚ
  damage_hard_limit : ℚ
  eco_hard_limit : ℚ
deriving DecidableEq

/-- `ControlAction` of `pest_risk_simulator.rs` (lines 35–45). -/
structure ControlAction where
  method_id : String
  intensity : ℚ
  continuous : Bool
  arrival_reduction_frac : ℚ
  repro_reduction_frac : ℚ
  damage_reduction_frac : ℚ
  eco_disturbance_score : ℚ
deriving DecidableEq

/-- `InterventionPlan` of `pest_risk_simulator.rs` (lines 48–52). -/
structure InterventionPlan where
  actions : List ControlAction
  horizon_days : ℕ
deriving DecidableEq

/-- `PestRiskState` of `pest_risk_simulator.rs` (lines 55–65). -/
structure PestRiskState where
  times_days : List ℕ
  abundance : List ℚ
  damage_metric : List ℚ
  eco_metric : List ℚ
  r_pest : List ℚ
  r_damage : List ℚ
  r_eco : List ℚ
  residual_v : List ℚ
deriving DecidableEq

/-- `SimulationConfig` of `pest_risk_simulator.rs` (lines 68–76). -/
structure SimulationConfig where
  w_pest : ℚ
  w_damage : ℚ
  w_eco : ℚ
  r_pest_max : ℚ
  r_damage_max : ℚ
  r_eco_max : ℚ
deriving DecidableEq

/-- `SimulationResult` of `pest_risk_simulator.rs` (lines 79–83). -/
structure SimulationResult where
  state : PestRiskState
  violated_hard_limit : Bool
deriving DecidableEq

/-- Rust `f64::clamp(lo, hi)`: `if x < lo {lo} else if x > hi {hi} else x`. -/
def fclamp (x lo hi : ℚ) : ℚ :=
  if x < lo then lo else if x > hi then hi else x

/-- `clamp01` of `pest_risk_simulator.rs` (lines 101–109): `if x <= 0.0 {0.0}
else if x >= 1.0 {1.0} else {x}`. -/
def clamp01 (x : ℚ) : ℚ :=
  if x ≤ 0 then 0 else if x ≥ 1 then 1 else x

/-- `seasonality_factor` of `pest_risk_simulator.rs` (lines 91–98).  Note the
amplitude is used raw: only `amp <= 0.0` is special-cased, there is no upper
clamp. -/
def seasonality_factor (cosq : ℚ → ℚ) (piq : ℚ) (day : ℕ) (amp phase : ℚ) : ℚ :=
  if amp ≤ 0 then 1
  else 1 + amp * cosq (2 * piq * ((day : ℚ) / 365) + phase)

/-- The four aggregate control scalars of `simulate_pest_risk` (lines
134–146). -/
structure ControlMults where
  arrival_mult : ℚ
  repro_mult : ℚ
  damage_mult : ℚ
  eco_base : ℚ
deriving DecidableEq

/-- One iteration of the `for a in &plan.actions` aggregation loop of
`simulate_pest_risk` (lines 141–145). -/
def controlStep (acc : ControlMults) (a : ControlAction) : ControlMults :=
  let f := fclamp a.intensity 0 1
  { arrival_mult := acc.arrival_mult * (1 - f * fclamp a.arrival_reduction_frac 0 1)
    repro_mult := acc.repro_mult * (1 - f * fclamp a.repro_reduction_frac 0 1)
    damage_mult := acc.damage_mult * (1 - f * fclamp a.damage_reduction_frac 0 1)
    eco_base := acc.eco_base + f * fclamp a.eco_disturbance_score 0 1 }

/-- The `for a in &plan.actions` aggregation loop of `simulate_pest_risk`
(lines 139–146). -/
def controlMults (actions : List ControlAction) : ControlMults :=
  actions.foldl controlStep
    { arrival_mult := 1, repro_mult := 1, damage_mult := 1, eco_base := 0 }

/-- The state-update block of the day loop of `simulate_pest_risk` (lines
181–209): from `(n_t, d_t, e_t)` at `day` to the state at `day + 1`. -/
def updateState (cosq : ℚ → ℚ) (piq : ℚ) (ctx : PestContext)
    (species : PestSpeciesModel) (m : ControlMults) (day : ℕ)
    (n_t d_t e_t : ℚ) : ℚ × ℚ × ℚ :=
  let season := seasonality_factor cosq piq day species.seasonality_amp
    species.seasonality_phase
  let lambda_t := species.base_arrival_rate * m.arrival_mult * season *
    fclamp ctx.food_availability 0 1 * fclamp ctx.harborage_quality 0 1
  let r_eff := species.base_repro_rate * m.repro_mult *
    fclamp ctx.water_availability 0 1
  let growth := r_eff * n_t * (1 - n_t / max species.abundance_hard_limit 1)
  let n_next := max (n_t + growth + lambda_t) 0
  let damage_increment := n_t * species.damage_sensitivity *
    fclamp ctx.human_proximity 0 1 * m.damage_mult
  let d_next := d_t + max damage_increment 0
  let eco_increment := m.eco_base * species.eco_sensitivity *
    (fclamp ctx.animal_proximity 0 1 + fclamp ctx.human_proximity 0 1) / 2
  let e_next := min (e_t + max eco_increment 0) (max species.eco_hard_limit 1)
  (n_next, d_next, e_next)

/-- Accumulator of the day loop: the eight parallel vectors plus the latched
violation bit (lines 119–126 and 148). -/
structure SimAcc where
  times : List ℕ
  n : List ℚ
  d : List ℚ
  e : List ℚ
  rp : List ℚ
  rd : List ℚ
  re : List ℚ
  v : List ℚ
  violated : Bool
deriving DecidableEq

/-- The normalized-coordinate computation of the day loop (lines 155–161):
`clamp01((x / limit.max(1.0)).min(1.0))`. -/
def rCoord (limit x : ℚ) : ℚ :=
  clamp01 (min (x / max limit 1) 1)

/-- The coordinate-and-push block of the day loop (lines 150–175): compute
the normalized coordinates and `v_t`, push everything, latch the hard-limit
bit. -/
def pushDay (species : PestSpeciesModel) (cfg : SimulationConfig) (day : ℕ)
    (n_t d_t e_t : ℚ) (acc : SimAcc) : SimAcc :=
  let r_p := rCoord species.abundance_hard_limit n_t
  let r_d := rCoord species.damage_hard_limit d_t
  let r_e := rCoord species.eco_hard_limit e_t
  let v_t := cfg.w_pest * r_p + cfg.w_damage * r_d + cfg.w_eco * r_e
  { times := acc.times ++ [day]
    n := acc.n ++ [n_t]
    d := acc.d ++ [d_t]
    e := acc.e ++ [e_t]
    rp := acc.rp ++ [r_p]
    rd := acc.rd ++ [r_d]
    re := acc.re ++ [r_e]
    v := acc.v ++ [v_t]
    violated := acc.violated ||
      (decide (r_p > cfg.r_pest_max) || decide (r_d > cfg.r_damage_max) ||
       decide (r_e > cfg.r_eco_max)) }

/-- The `for day in 0..=horizon` loop of `simulate_pest_risk` (lines 150–210):
`fuel` is the number of days still to come after `day` (`horizon - day`), so
the `day == horizon` break is the `fuel = 0` case. -/
def simLoop (cosq : ℚ → ℚ) (piq : ℚ) (ctx : PestContext)
    (species : PestSpeciesModel) (cfg : SimulationConfig) (m : ControlMults) :
    ℕ → ℕ → ℚ → ℚ → ℚ → SimAcc → SimAcc
  | day, 0, n_t, d_t, e_t, acc => pushDay species cfg day n_t d_t e_t acc
  | day, fuel + 1, n_t, d_t, e_t, acc =>
    let acc1 := pushDay species cfg day n_t d_t e_t acc
    let s := updateState cosq piq ctx species m day n_t d_t e_t
    simLoop cosq piq ctx species cfg m (day + 1) fuel s.1 s.2.1 s.2.2 acc1

/-- `simulate_pest_risk` of `pest_risk_simulator.rs` (lines 112–227). -/
def simulate_pest_risk (cosq : ℚ → ℚ) (piq : ℚ) (ctx : PestContext)
    (species : PestSpeciesModel) (plan : InterventionPlan)
    (cfg : SimulationConfig) : SimulationResult :=
  let horizon := max plan.horizon_days 1
  let m := controlMults plan.actions
  let acc := simLoop cosq piq ctx species cfg m 0 horizon 1 0 0
    { times := [], n := [], d := [], e := [], rp := [], rd := [], re := [],
      v := [], violated := false }
  { state :=
    { times_days := acc.times
      abundance := acc.n
      damage_metric := acc.d
      eco_metric := acc.e
      r_pest := acc.rp
      r_damage := acc.rd
      r_eco := acc.re
      residual_v := acc.v }
    violated_hard_limit := acc.violated }

/-! #### Derived forms of the loop state (for the characterization lemmas) -/

/-- The `(n_t, d_t, e_t)` state the day loop holds at the start of day `d`:
`(1, 0, 0)` at day 0 and one `updateState` per elapsed day. -/
def stateAt (cosq : ℚ → ℚ) (piq : ℚ) (ctx : PestContext)
    (species : PestSpeciesModel) (m : ControlMults) : ℕ → ℚ × ℚ × ℚ
  | 0 => (1, 0, 0)
  | d + 1 =>
    let s := stateAt cosq piq ctx species m d
    updateState cosq piq ctx species m d s.1 s.2.1 s.2.2

/-- The residual `V` the day loop emits for a state triple (line 163). -/
def vOf (species : PestSpeciesModel) (cfg : SimulationConfig)
    (s : ℚ × ℚ × ℚ) : ℚ :=
  cfg.w_pest * rCoord species.abundance_hard_limit s.1 +
  cfg.w_damage * rCoord species.damage_hard_limit s.2.1 +
  cfg.w_eco * rCoord species.eco_hard_limit s.2.2

/-- The latched hard-limit test of the day loop for a state triple
(lines 173–175). -/
def violAt (species : PestSpeciesModel) (cfg : SimulationConfig)
    (s : ℚ × ℚ × ℚ) : Bool :=
  decide (rCoord species.abundance_hard_limit s.1 > cfg.r_pest_max) ||
  decide (rCoord species.damage_hard_limit s.2.1 > cfg.r_damage_max) ||
  decide (rCoord species.eco_hard_limit s.2.2 > cfg.r_eco_max)

/-- Abundance `N_d` at the start of day `d`. -/
def nAt (cosq : ℚ → ℚ) (piq : ℚ) (ctx : PestContext)
    (species : PestSpeciesModel) (m : ControlMults) (d : ℕ) : ℚ :=
  (stateAt cosq piq ctx species m d).1

/-- Damage `D_d` at the start of day `d`. -/
def dAt (cosq : ℚ → ℚ) (piq : ℚ) (ctx : PestContext)
    (species : PestSpeciesModel) (m : ControlMults) (d : ℕ) : ℚ :=
  (stateAt cosq piq ctx species m d).2.1

/-- Eco disturbance `E_d` at the start of day `d`. -/
def eAt (cosq : ℚ → ℚ) (piq : ℚ) (ctx : PestContext)
    (species : PestSpeciesModel) (m : ControlMults) (d : ℕ) : ℚ :=
  (stateAt cosq piq ctx species m d).2.2

/-- Normalized pest-risk coordinate at day `d`. -/
def rpAt (cosq : ℚ → ℚ) (piq : ℚ) (ctx : PestContext)
    (species : PestSpeciesModel) (m : ControlMults) (d : ℕ) : ℚ :=
  rCoord species.abundance_hard_limit (stateAt cosq piq ctx species m d).1

/-- Normalized damage-risk coordinate at day `d`. -/
def rdAt (cosq : ℚ → ℚ) (piq : ℚ) (ctx : PestContext)
    (species : PestSpeciesModel) (m : ControlMults) (d : ℕ) : ℚ :=
  rCoord species.damage_hard_limit (stateAt cosq piq ctx species m d).2.1

/-- Normalized eco-risk coordinate at day `d`. -/
def reAt (cosq : ℚ → ℚ) (piq : ℚ) (ctx : PestContext)
    (species : PestSpeciesModel) (m : ControlMults) (d : ℕ) : ℚ :=
  rCoord species.eco_hard_limit (stateAt cosq piq ctx species m d).2.2

/-- Residual `V_d` at day `d`. -/
def vAtDay (cosq : ℚ → ℚ) (piq : ℚ) (ctx : PestContext)
    (species : PestSpeciesModel) (cfg : SimulationConfig) (m : ControlMults)
    (d : ℕ) : ℚ :=
  vOf species cfg (stateAt cosq piq ctx species m d)

/-- Hard-limit test at day `d`. -/
def violAtDay (cosq : ℚ → ℚ) (piq : ℚ) (ctx : PestContext)
    (species : PestSpeciesModel) (cfg : SimulationConfig) (m : ControlMults)
    (d : ℕ) : Bool :=
  violAt species cfg (stateAt cosq piq ctx species m d)

/-! #### The dynamics as the spec states them (§4.3, for refinement
comparison) -/

/-- The spec's arrival multiplier: the product over all actions of
`1 − clamp01(intensity) · clamp01(arrival_reduction_frac)`.  Stated from the
spec's words, to be compared with `controlMults`. -/
def spec_arrival_mult (actions : List ControlAction) : ℚ :=
  (actions.map (fun a => 1 - clamp01 a.intensity * clamp01 a.arrival_reduction_frac)).prod

/-- The spec's reproduction multiplier (§4.3). -/
def spec_repro_mult (actions : List ControlAction) : ℚ :=
  (actions.map (fun a => 1 - clamp01 a.intensity * clamp01 a.repro_reduction_frac)).prod

/-- The spec's damage multiplier (§4.3). -/
def spec_damage_mult (actions : List ControlAction) : ℚ :=
  (actions.map (fun a => 1 - clamp01 a.intensity * clamp01 a.damage_reduction_frac)).prod

/-- The spec's eco disturbance base: the sum over all actions of
`clamp01(intensity) · clamp01(eco_disturbance_score)` (§4.3). -/
def spec_eco_base (actions : List ControlAction) : ℚ :=
  (actions.map (fun a => clamp01 a.intensity * clamp01 a.eco_disturbance_score)).sum

/-- The spec's seasonal factor: `season(d) = 1 + amp · cos(2π·d/365 + phase)`
with `amp = clamp01(seasonality_amp)`, and 1 when that amplitude is ≤ 0
(§4.3).  Stated from the spec's words, to be compared with
`seasonality_factor`. -/
def spec_season (cosq : ℚ → ℚ) (piq : ℚ) (amp phase : ℚ) (d : ℕ) : ℚ :=
  if clamp01 amp ≤ 0 then 1
  else 1 + clamp01 amp * cosq (2 * piq * ((d : ℚ) / 365) + phase)

/-- The spec's state recurrence (§4.3): `(N_0, D_0, E_0) = (1, 0, 0)` and the
update equations `λ_d`, `r_eff`, `growth`, `N_{d+1} = max(0, …)`,
`D_{d+1} = D_d + max(0, …)`, `E_{d+1} = min(max(1, eco_hard_limit), …)`.
Stated from the spec's words, to be compared with the simulator's states. -/
def spec_state (cosq : ℚ → ℚ) (piq : ℚ) (ctx : PestContext)
    (species : PestSpeciesModel) (actions : List ControlAction) :
    ℕ → ℚ × ℚ × ℚ
  | 0 => (1, 0, 0)
  | d + 1 =>
    let s := spec_state cosq piq ctx species actions d
    let lambda_d := species.base_arrival_rate * spec_arrival_mult actions *
      spec_season cosq piq species.seasonality_amp species.seasonality_phase d *
      clamp01 ctx.food_availability * clamp01 ctx.harborage_quality
    let r_eff := species.base_repro_rate * spec_repro_mult actions *
      clamp01 ctx.water_availability
    let growth := r_eff * s.1 * (1 - s.1 / max 1 species.abundance_hard_limit)
    let damage_increment := s.1 * species.damage_sensitivity *
      clamp01 ctx.human_proximity * spec_damage_mult actions
    let eco_increment := spec_eco_base actions * species.eco_sensitivity *
      (clamp01 ctx.animal_proximity + clamp01 ctx.human_proximity) / 2
    (max 0 (s.1 + growth + lambda_d),
     s.2.1 + max 0 damage_increment,
     min (max 1 species.eco_hard_limit) (s.2.2 + max 0 eco_increment))

/-! #### Witness fixtures for the simulator -/

/-- Witness fixture: a mild site context. -/
def wCtx : PestContext :=
  { structure_type := "home", climate_band := "temperate",
    human_proximity := 1/2, animal_proximity := 1/2, food_availability := 1/2,
    water_availability := 1/2, harborage_quality := 1/2 }

/-- Witness fixture: a species model with zero rates and hard limits 10. -/
def wSpecies : PestSpeciesModel :=
  { species_id := "bedbug", base_arrival_rate := 0, base_repro_rate := 0,
    seasonality_amp := 0, seasonality_phase := 0, damage_sensitivity := 0,
    eco_sensitivity := 0, abundance_hard_limit := 10, damage_hard_limit := 10,
    eco_hard_limit := 10 }

/-- Witness fixture: the empty plan over one day. -/
def wPlan : InterventionPlan := { actions := [], horizon_days := 1 }

/-- Witness fixture: the empty plan with a zero-day horizon. -/
def wPlan0 : InterventionPlan := { actions := [], horizon_days := 0 }

/-- Witness fixture: equal weights and unit ceilings. -/
def wCfg : SimulationConfig :=
  { w_pest := 1/3, w_damage := 1/3, w_eco := 1/3, r_pest_max := 1,
    r_damage_max := 1, r_eco_max := 1 }

end PestKernel

namespace Guard

/-! ### Plan guard (deadbugs-guard/src/pest_plan_guard.rs) -/

/-- `PlanGuardConfig` of `pest_plan_guard.rs` (lines 5–9). -/
structure PlanGuardConfig where
  v_max : ℚ
  require_v_nonincrease : Bool
  require_all_below_max : Bool
deriving DecidableEq

/-- `GuardVerdict` of `pest_plan_guard.rs` (lines 13–18). -/
structure GuardVerdict where
  corridor_safe : Bool
  hard_limit_violated : Bool
  v_nonincreasing : Bool
  v_exceeded_max : Bool
deriving DecidableEq

/-- The V-monotonicity tolerance `1e-9` of `pest_plan_guard.rs` line 34,
idealised as the exact rational. -/
def vTol : ℚ := 1 / 1000000000

/-- The `windows(2)` loop of `evaluate_plan_guard` (lines 31–38): scans
adjacent pairs, breaking at the first increase beyond the tolerance (the
`require_v_nonincrease` flag is tested inside the loop, as in the source). -/
def vNonincLoop (req : Bool) : List ℚ → Bool
  | v_t :: v_next :: rest =>
    if req && decide (v_next > v_t + vTol) then false
    else vNonincLoop req (v_next :: rest)
  | _ => true

/-- `evaluate_plan_guard` of `pest_plan_guard.rs` (lines 21–57). -/
def evaluate_plan_guard (sim : PestKernel.SimulationResult)
    (cfg : PlanGuardConfig) : GuardVerdict :=
  let hard_violation := sim.violated_hard_limit
  let vt := sim.state.residual_v
  let v_noninc := vNonincLoop cfg.require_v_nonincrease vt
  let v_exceeded :=
    if cfg.require_all_below_max then vt.any (fun val => decide (val > cfg.v_max))
    else false
  let corridor_safe := !hard_violation && v_noninc && !v_exceeded
  { corridor_safe := corridor_safe
    hard_limit_violated := hard_violation
    v_nonincreasing := v_noninc
    v_exceeded_max := v_exceeded }

end Guard

namespace KerEngine

/-! ### Alternative case-weighted scorer (deadbugs-ker-engine/src/lib.rs)

`f64` is idealised as ℚ; `E.powf x` (that is, `exp x`) is abstracted as the
parameter `expq : ℚ → ℚ`. -/

/-- `ControlMethod` of `deadbugs-ker-engine/src/lib.rs` (lines 1–7). -/
structure ControlMethod where
  method_id : String
  «class» : String
  lethal : Bool
  chemical : Bool
deriving DecidableEq

/-- `OutcomeLog` of `deadbugs-ker-engine/src/lib.rs` (lines 9–18). -/
structure OutcomeLog where
  method_id : String
  pest_class : String
  context_hash : String
  n_cases : ℕ
  effectiveness_band : ℚ
  bycatch_band : ℚ
  waste_band : ℚ
deriving DecidableEq

/-- `RiskScoreKER` of `deadbugs-ker-engine/src/lib.rs` (lines 20–26). -/
structure RiskScoreKER where
  method_id : String
  k_knowledge : ℚ
  e_eco_impact : ℚ
  r_risk_harm : ℚ
deriving DecidableEq

/-- One iteration of the accumulation loop of `score_method` (lines 35–41):
adds `(w, w·eff, w·bycatch, w·waste)` for one log. -/
def caseStep (acc : ℚ × ℚ × ℚ × ℚ) (log : OutcomeLog) : ℚ × ℚ × ℚ × ℚ :=
  let w : ℚ := ((max log.n_cases 1 : ℕ) : ℚ)
  (acc.1 + w,
   acc.2.1 + w * PestKernel.fclamp log.effectiveness_band 0 1,
   acc.2.2.1 + w * PestKernel.fclamp log.bycatch_band 0 1,
   acc.2.2.2 + w * PestKernel.fclamp log.waste_band 0 1)

/-- The accumulation loop of `score_method` (lines 30–41): totals of
`(w, w·eff, w·bycatch, w·waste)` over the logs whose `method_id` matches. -/
def caseTotals (method : ControlMethod) (logs : List OutcomeLog) :
    ℚ × ℚ × ℚ × ℚ :=
  (logs.filter (fun l => decide (l.method_id = method.method_id))).foldl
    caseStep (0, 0, 0, 0)

/-- `score_method` of `deadbugs-ker-engine/src/lib.rs` (lines 29–94). -/
def score_method (expq : ℚ → ℚ) (method : ControlMethod)
    (logs : List OutcomeLog) : RiskScoreKER :=
  let acc := caseTotals method logs
  let total_cases := acc.1
  let averages :=
    if total_cases > 0 then
      (acc.2.1 / total_cases, acc.2.2.1 / total_cases, acc.2.2.2 / total_cases)
    else ((0 : ℚ), (0.5 : ℚ), (0.5 : ℚ))
  let avg_eff := averages.1
  let avg_bycatch := averages.2.1
  let avg_waste := averages.2.2
  let k : ℚ :=
    if total_cases = 0 then 0.6
    else
      let evidence_factor := PestKernel.fclamp (1 - expq (-total_cases / 10)) 0 1
      0.5 + 0.5 * evidence_factor * avg_eff
  let lethal_penalty : ℚ := if method.lethal then 0.3 else 0
  let chemical_penalty : ℚ := if method.chemical then 0.6 else 0
  let class_bonus : ℚ :=
    match method.«class» with
    | "exclusion" | "sanitation" | "habitat_mod" => 0.3
    | _ => 0.1
  let e := PestKernel.fclamp
    (0.5 + class_bonus + 0.2 * (1 - avg_bycatch) + 0.2 * (1 - avg_waste) -
      lethal_penalty - chemical_penalty) 0 1
  let r := PestKernel.fclamp
    (0.2 * avg_bycatch + 0.2 * avg_waste +
      (if method.lethal then 0.3 else 0) +
      (if method.chemical then 0.4 else 0)) 0 1
  { method_id := method.method_id, k_knowledge := k, e_eco_impact := e,
    r_risk_harm := r }

end KerEngine

namespace DeadbugsCore

/-! ### Spec-side formulations (for refinement comparison) -/

/-- The knowledge score K exactly as §4.1 of the spec states it: if N = 0
then 0.1, otherwise `clamp01 (base · (1 − 0.5 · variability))` with
`variability = p_H(1−p_H) + p_M(1−p_M) + p_L(1−p_L)` over the
effectiveness-band fractions and `base` = 0.9 / 0.7 / 0.4 at the N ≥ 20 /
N ≥ 5 / N ≥ 1 evidence thresholds.  Stated from the spec's words, to be
compared with `compute_k`. -/
def spec_compute_k (logs : List OutcomeLog) : ℚ :=
  if logs.length = 0 then 0.1
  else
    let N : ℕ := logs.length
    let ph : ℚ := ((logs.countP (fun log => log.effectiveness = EffectivenessBand.High) : ℕ) : ℚ) / (N : ℚ)
    let pm : ℚ := ((logs.countP (fun log => log.effectiveness = EffectivenessBand.Medium) : ℕ) : ℚ) / (N : ℚ)
    let pl : ℚ := ((logs.countP (fun log => log.effectiveness = EffectivenessBand.Low) : ℕ) : ℚ) / (N : ℚ)
    let variability := ph * (1 - ph) + pm * (1 - pm) + pl * (1 - pl)
    let base : ℚ := if 20 ≤ N then 0.9 else if 5 ≤ N then 0.7 else 0.4
    clamp01 (base * (1 - 0.5 * variability))

end DeadbugsCore

/-! ### Witness fixtures for the registry and the alternative scorer -/

/-- Witness fixture: a clean exclusion method in an otherwise empty
registry. -/
def wMethod : DeadbugsCore.ControlMethod :=
  { id := "m1", family := DeadbugsCore.ControlFamily.Exclusion,
    uses_disposable_electronics := false, generates_persistent_plastic := false,
    lethal := false, chemical := false }

/-- Witness fixture: registry holding only `wMethod` and no logs. -/
def wReg : DeadbugsCore.MethodRegistry := { methods := [wMethod], logs := [] }

/-- Witness fixture: the score `query_safest_methods` produces for `wMethod`
on empty logs (K = 0.1, E uplifted from 0.95 to 1, R = 0). -/
def wQScore : DeadbugsCore.KerScore :=
  { k := 1/10, e := 1, r := 0, coords := DeadbugsCore.RiskCoordinates.default,
    hard_violation := false }

/-- Witness fixture: the un-uplifted score of `wMethod` on empty logs. -/
def wTScore : DeadbugsCore.KerScore :=
  { k := 1/10, e := 19/20, r := 0, coords := DeadbugsCore.RiskCoordinates.default,
    hard_violation := false }

/-- Witness fixture: an exclusion-class method for the alternative scorer. -/
def wEngMethod : KerEngine.ControlMethod :=
  { method_id := "x", «class» := "exclusion", lethal := false, chemical := false }

namespace Guard

/-- The `windows(2)` scan returns `false` exactly when the flag is set and
some adjacent pair of residuals increases beyond the tolerance. -/
theorem vNonincLoop_false_iff (req : Bool) :
    ∀ l : List ℚ, vNonincLoop req l = false ↔
      (req = true ∧ ∃ i a b, l[i]? = some a ∧ l[i + 1]? = some b ∧ a + vTol < b)
  | [] => by
    constructor
    · intro h; exact absurd h (by simp [vNonincLoop])
    · rintro ⟨-, i, a, b, h1, -, -⟩; simp at h1
  | [x] => by
    constructor
    · intro h; exact absurd h (by simp [vNonincLoop])
    · rintro ⟨-, i, a, b, -, h2, -⟩
      cases i <;> simp at h2
  | a :: b :: rest => by
    have ih := vNonincLoop_false_iff req (b :: rest)
    simp only [vNonincLoop]
    by_cases hc : (req && decide (b > a + vTol)) = true
    · rw [if_pos hc]
      have hc' : req = true ∧ a + vTol < b := by simpa using hc
      constructor
      · intro _
        exact ⟨hc'.1, 0, a, b, rfl, by simp, hc'.2⟩
      · intro _; rfl
    · rw [if_neg hc]
      rw [ih]
      constructor
      · rintro ⟨hreq, i, x, y, h1, h2, h3⟩
        exact ⟨hreq, i + 1, x, y, by simpa using h1, by simpa using h2, h3⟩
      · rintro ⟨hreq, i, x, y, h1, h2, h3⟩
        refine ⟨hreq, ?_⟩
        cases i with
        | zero =>
          simp only [List.getElem?_cons_zero, Option.some.injEq] at h1
          simp only [List.getElem?_cons_succ, List.getElem?_cons_zero,
            Option.some.injEq] at h2
          subst h1; subst h2
          exact absurd (by simp [hreq]; exact h3) hc
        | succ j =>
          exact ⟨j, x, y, by simpa using h1, by simpa using h2, h3⟩

end Guard

/-- C3: `evaluate_plan_guard` copies the simulator's hard-limit bit; its
`v_nonincreasing` is true unless `require_v_nonincrease` is set and some
adjacent residual pair rises by more than the 1e-9 tolerance; its
`v_exceeded_max` is false unless `require_all_below_max` is set and some
residual exceeds `v_max`; and `corridor_safe` is the conjunction of the
negated hard bit, `v_nonincreasing`, and the negated exceed bit. -/
theorem evaluate_plan_guard_spec (sim : PestKernel.SimulationResult)
    (cfg : Guard.PlanGuardConfig) :
    (Guard.evaluate_plan_guard sim cfg).hard_limit_violated =
      sim.violated_hard_limit ∧
    ((Guard.evaluate_plan_guard sim cfg).v_nonincreasing = false ↔
      (cfg.require_v_nonincrease = true ∧ ∃ i a b,
        sim.state.residual_v[i]? = some a ∧
        sim.state.residual_v[i + 1]? = some b ∧ a + Guard.vTol < b)) ∧
    ((Guard.evaluate_plan_guard sim cfg).v_exceeded_max = true ↔
      (cfg.require_all_below_max = true ∧
        ∃ x ∈ sim.state.residual_v, cfg.v_max < x)) ∧
    (Guard.evaluate_plan_guard sim cfg).corridor_safe =
      (!(Guard.evaluate_plan_guard sim cfg).hard_limit_violated &&
        (Guard.evaluate_plan_guard sim cfg).v_nonincreasing &&
        !(Guard.evaluate_plan_guard sim cfg).v_exceeded_max) := by
  refine ⟨rfl, ?_, ?_, rfl⟩
  · exact Guard.vNonincLoop_false_iff cfg.require_v_nonincrease sim.state.residual_v
  · simp only [Guard.evaluate_plan_guard]
    cases hall : cfg.require_all_below_max with
    | true => simp [hall, List.any_eq_true]
    | false => simp [hall]

/-- C6: `score_method` sets `hard_violation` exactly when one of the pets,
human-injury or wildlife coordinates reaches 1; the waste and air
coordinates do not enter the condition, and on the empty log list the flag
is false. -/
theorem score_method_hard_violation_iff (method : DeadbugsCore.ControlMethod)
    (logs : List DeadbugsCore.OutcomeLog) :
    ((DeadbugsCore.score_method method logs).hard_violation = true ↔
      (1 ≤ (DeadbugsCore.compute_risk_coordinates logs method).r_pets ∨
       1 ≤ (DeadbugsCore.compute_risk_coordinates logs method).r_human_injury ∨
       1 ≤ (DeadbugsCore.compute_risk_coordinates logs method).r_wildlife)) ∧
    (DeadbugsCore.score_method method []).hard_violation = false := by
  constructor
  · simp [DeadbugsCore.score_method, ge_iff_le, or_assoc]
  · simp [DeadbugsCore.score_method, DeadbugsCore.compute_risk_coordinates,
      DeadbugsCore.RiskCoordinates.default]

/-- C7: the knowledge score of `compute_k` is exactly the spec's formula:
0.1 on an empty log list, otherwise `clamp01 (base · (1 − 0.5 ·
variability))` with the band-fraction variability and the 0.4 / 0.7 / 0.9
evidence-threshold base. -/
theorem compute_k_matches_spec (logs : List DeadbugsCore.OutcomeLog) :
    DeadbugsCore.compute_k logs = DeadbugsCore.spec_compute_k logs := by
  unfold DeadbugsCore.compute_k DeadbugsCore.spec_compute_k
  by_cases h : logs = []
  · subst h; simp
  · have hne : logs.isEmpty = false := by
      simpa [List.isEmpty_iff] using h
    have hlen : ¬ logs.length = 0 := by
      simpa [List.length_eq_zero] using h
    rw [hne, if_neg hlen]
    simp only [Bool.false_eq_true, if_false]
    have h20 : ((logs.length : ℚ) ≥ 20) ↔ (20 ≤ logs.length) := by
      rw [ge_iff_le]; exact_mod_cast Iff.rfl
    have h5 : ((logs.length : ℚ) ≥ 5) ↔ (5 ≤ logs.length) := by
      rw [ge_iff_le]; exact_mod_cast Iff.rfl
    by_cases h20' : 20 ≤ logs.length
    · rw [if_pos (h20.mpr h20'), if_pos h20']
    · rw [if_neg (fun hq => h20' (h20.mp hq)), if_neg h20']
      by_cases h5' : 5 ≤ logs.length
      · rw [if_pos (h5.mpr h5'), if_pos h5']
      · rw [if_neg (fun hq => h5' (h5.mp hq)), if_neg h5']

/-- C2: every pair returned by `query_safest_methods` has no hard violation,
R within the ceiling, a family other than MonitoringOnly, and — in Home or
Hospital — neither disposable electronics nor persistent plastic. -/
theorem query_safest_methods_sound (reg : DeadbugsCore.MethodRegistry)
    (pest : DeadbugsCore.PestSpecies) (location : DeadbugsCore.LocationType)
    (max_r : ℚ) (m : DeadbugsCore.ControlMethod) (s : DeadbugsCore.KerScore)
    (hmem : (m, s) ∈ DeadbugsCore.query_safest_methods reg pest location max_r) :
    s.hard_violation = false ∧ s.r ≤ max_r ∧
    m.family ≠ DeadbugsCore.ControlFamily.MonitoringOnly ∧
    ((location = DeadbugsCore.LocationType.Home ∨
      location = DeadbugsCore.LocationType.Hospital) →
      m.uses_disposable_electronics = false ∧
      m.generates_persistent_plastic = false) := by
  unfold DeadbugsCore.query_safest_methods at hmem
  rw [List.Perm.mem_iff (List.perm_insertionSort _ _)] at hmem
  rw [List.mem_filter] at hmem
  obtain ⟨hmap, hcond⟩ := hmem
  rw [List.mem_map] at hmap
  obtain ⟨m', hm', heq⟩ := hmap
  rw [List.mem_filter] at hm'
  have hmm : m' = m := congrArg Prod.fst heq
  subst hmm
  have hfam : m'.family ≠ DeadbugsCore.ControlFamily.MonitoringOnly := by
    simpa using hm'.2
  dsimp only at hcond
  by_cases hbad : (s.hard_violation || decide (s.r > max_r)) = true
  · rw [if_pos hbad] at hcond
    cases hcond
  · rw [if_neg hbad] at hcond
    simp only [Bool.or_eq_true, decide_eq_true_eq, not_or, Bool.not_eq_true,
      gt_iff_lt, not_lt] at hbad
    refine ⟨hbad.1, hbad.2, hfam, ?_⟩
    rintro (rfl | rfl) <;> · simpa using hcond

/-- C8: every pair returned by `tier0_exclusion_hygiene` has family
Exclusion or Sanitation, no hard violation, R ≤ 0.2, and carries exactly
the un-uplifted output of `score_method` on the matching log sub-list. -/
theorem tier0_exclusion_hygiene_sound (reg : DeadbugsCore.MethodRegistry)
    (pest : DeadbugsCore.PestSpecies) (location : DeadbugsCore.LocationType)
    (m : DeadbugsCore.ControlMethod) (s : DeadbugsCore.KerScore)
    (hmem : (m, s) ∈ DeadbugsCore.tier0_exclusion_hygiene reg pest location) :
    (m.family = DeadbugsCore.ControlFamily.Exclusion ∨
     m.family = DeadbugsCore.ControlFamily.Sanitation) ∧
    s.hard_violation = false ∧ s.r ≤ 0.2 ∧
    s = DeadbugsCore.score_method m (DeadbugsCore.logs_for_method reg m.id pest) := by
  unfold DeadbugsCore.tier0_exclusion_hygiene at hmem
  rw [List.Perm.mem_iff (List.perm_insertionSort _ _)] at hmem
  rw [List.mem_filterMap] at hmem
  obtain ⟨m', hm', hf⟩ := hmem
  dsimp only at hf
  by_cases hfam : (!decide (m'.family = DeadbugsCore.ControlFamily.Exclusion ∨
      m'.family = DeadbugsCore.ControlFamily.Sanitation)) = true
  · rw [if_pos hfam] at hf
    cases hf
  · rw [if_neg hfam] at hf
    by_cases hok : (!(DeadbugsCore.score_method m'
        (DeadbugsCore.logs_for_method reg m'.id pest)).hard_violation &&
        decide ((DeadbugsCore.score_method m'
          (DeadbugsCore.logs_for_method reg m'.id pest)).r ≤ 0.2)) = true
    · rw [if_pos hok] at hf
      injection hf with hf'
      have hmm : m' = m := congrArg Prod.fst hf'
      have hss : DeadbugsCore.score_method m'
          (DeadbugsCore.logs_for_method reg m'.id pest) = s :=
        congrArg Prod.snd hf'
      subst hmm
      simp only [Bool.and_eq_true, Bool.not_eq_true', decide_eq_true_eq] at hok
      refine ⟨or_iff_not_imp_left.mpr (by simpa using hfam), ?_, ?_, hss.symm⟩
      · rw [← hss]; exact hok.1
      · rw [← hss]; exact hok.2
    · rw [if_neg hok] at hf
      cases hf

/-- Evaluation of the query on the witness fixture. -/
lemma wQuery_eval : DeadbugsCore.query_safest_methods wReg "ants"
    DeadbugsCore.LocationType.Home ((1 : ℚ)/2) = [(wMethod, wQScore)] := by
  simp [DeadbugsCore.query_safest_methods, wReg, wMethod, wQScore,
    DeadbugsCore.logs_for_method, DeadbugsCore.score_method,
    DeadbugsCore.compute_risk_coordinates, DeadbugsCore.compute_k,
    DeadbugsCore.compute_e, DeadbugsCore.compute_r,
    DeadbugsCore.RiskCoordinates.default, DeadbugsCore.clamp01,
    List.insertionSort, List.orderedInsert]
  norm_num

/-- Evaluation of the tier-0 query on the witness fixture. -/
lemma wTier0_eval : DeadbugsCore.tier0_exclusion_hygiene wReg "ants"
    DeadbugsCore.LocationType.Home = [(wMethod, wTScore)] := by
  simp [DeadbugsCore.tier0_exclusion_hygiene, wReg, wMethod, wTScore,
    DeadbugsCore.logs_for_method, DeadbugsCore.score_method,
    DeadbugsCore.compute_risk_coordinates, DeadbugsCore.compute_k,
    DeadbugsCore.compute_e, DeadbugsCore.compute_r,
    DeadbugsCore.RiskCoordinates.default, DeadbugsCore.clamp01,
    List.insertionSort, List.orderedInsert]
  norm_num

/-- Witness for C2 at a concrete registry, pest, Home location and ceiling
1/2. -/
theorem query_safest_methods_sound_witness :
    wQScore.hard_violation = false ∧ wQScore.r ≤ (1 : ℚ)/2 ∧
    wMethod.family ≠ DeadbugsCore.ControlFamily.MonitoringOnly ∧
    ((DeadbugsCore.LocationType.Home = DeadbugsCore.LocationType.Home ∨
      DeadbugsCore.LocationType.Home = DeadbugsCore.LocationType.Hospital) →
      wMethod.uses_disposable_electronics = false ∧
      wMethod.generates_persistent_plastic = false) :=
  query_safest_methods_sound wReg "ants" DeadbugsCore.LocationType.Home
    ((1 : ℚ)/2) wMethod wQScore (by rw [wQuery_eval]; exact List.mem_singleton.mpr rfl)

/-- Witness for C8 at the same concrete registry and pest. -/
theorem tier0_exclusion_hygiene_sound_witness :
    (wMethod.family = DeadbugsCore.ControlFamily.Exclusion ∨
     wMethod.family = DeadbugsCore.ControlFamily.Sanitation) ∧
    wTScore.hard_violation = false ∧ wTScore.r ≤ 0.2 ∧
    wTScore = DeadbugsCore.score_method wMethod
      (DeadbugsCore.logs_for_method wReg wMethod.id "ants") :=
  tier0_exclusion_hygiene_sound wReg "ants" DeadbugsCore.LocationType.Home
    wMethod wTScore (by rw [wTier0_eval]; exact List.mem_singleton.mpr rfl)

/-- A clamp into `[0, 1]` lands in `[0, 1]`. -/
lemma fclamp01_mem (x : ℚ) :
    0 ≤ PestKernel.fclamp x 0 1 ∧ PestKernel.fclamp x 0 1 ≤ 1 := by
  unfold PestKernel.fclamp
  split_ifs <;> constructor <;> linarith

/-- Loop invariant of the case-weighted accumulation: totals stay
nonnegative and the weighted effectiveness sum never exceeds the case
total. -/
lemma caseStep_foldl_inv (l : List KerEngine.OutcomeLog) :
    ∀ a : ℚ × ℚ × ℚ × ℚ, 0 ≤ a.1 → 0 ≤ a.2.1 → a.2.1 ≤ a.1 →
    0 ≤ (l.foldl KerEngine.caseStep a).1 ∧
    0 ≤ (l.foldl KerEngine.caseStep a).2.1 ∧
    (l.foldl KerEngine.caseStep a).2.1 ≤ (l.foldl KerEngine.caseStep a).1 := by
  induction l with
  | nil => intro a h1 h2 h3; exact ⟨h1, h2, h3⟩
  | cons hd tl ih =>
    intro a h1 h2 h3
    simp only [List.foldl_cons]
    have hw : (0 : ℚ) ≤ ((max hd.n_cases 1 : ℕ) : ℚ) := Nat.cast_nonneg _
    have hfc := fclamp01_mem hd.effectiveness_band
    have hwfc : ((max hd.n_cases 1 : ℕ) : ℚ) *
        PestKernel.fclamp hd.effectiveness_band 0 1 ≤
        ((max hd.n_cases 1 : ℕ) : ℚ) := mul_le_of_le_one_right hw hfc.2
    apply ih
    · dsimp only [KerEngine.caseStep]; linarith
    · dsimp only [KerEngine.caseStep]
      have := mul_nonneg hw hfc.1
      linarith
    · dsimp only [KerEngine.caseStep]; linarith

/-- Bounds for `caseTotals`. -/
lemma caseTotals_inv (method : KerEngine.ControlMethod)
    (logs : List KerEngine.OutcomeLog) :
    0 ≤ (KerEngine.caseTotals method logs).1 ∧
    0 ≤ (KerEngine.caseTotals method logs).2.1 ∧
    (KerEngine.caseTotals method logs).2.1 ≤ (KerEngine.caseTotals method logs).1 :=
  caseStep_foldl_inv _ _ le_rfl le_rfl le_rfl

/-- Filtering to the matching logs first does not change the totals. -/
lemma caseTotals_filter (method : KerEngine.ControlMethod)
    (logs : List KerEngine.OutcomeLog) :
    KerEngine.caseTotals method
      (logs.filter (fun l => decide (l.method_id = method.method_id))) =
    KerEngine.caseTotals method logs := by
  unfold KerEngine.caseTotals
  rw [List.filter_filter]
  simp only [Bool.and_self]

/-- C10: the alternative case-weighted scorer keeps K, E and R in [0,1],
ignores logs whose `method_id` does not match, and, with no matching log,
returns K = 0.6 with the default average bycatch and waste bands of 0.5. -/
theorem engine_score_method_spec (expq : ℚ → ℚ)
    (method : KerEngine.ControlMethod) (logs : List KerEngine.OutcomeLog) :
    (0 ≤ (KerEngine.score_method expq method logs).k_knowledge ∧
      (KerEngine.score_method expq method logs).k_knowledge ≤ 1) ∧
    (0 ≤ (KerEngine.score_method expq method logs).e_eco_impact ∧
      (KerEngine.score_method expq method logs).e_eco_impact ≤ 1) ∧
    (0 ≤ (KerEngine.score_method expq method logs).r_risk_harm ∧
      (KerEngine.score_method expq method logs).r_risk_harm ≤ 1) ∧
    KerEngine.score_method expq method logs =
      KerEngine.score_method expq method
        (logs.filter (fun l => decide (l.method_id = method.method_id))) ∧
    (logs.filter (fun l => decide (l.method_id = method.method_id)) = [] →
      (KerEngine.score_method expq method logs).k_knowledge = 0.6 ∧
      (KerEngine.score_method expq method logs).e_eco_impact =
        PestKernel.fclamp (0.5 +
          (match method.«class» with
            | "exclusion" | "sanitation" | "habitat_mod" => (0.3 : ℚ)
            | _ => 0.1) +
          0.2 * (1 - 0.5) + 0.2 * (1 - 0.5) -
          (if method.lethal then 0.3 else 0) -
          (if method.chemical then 0.6 else 0)) 0 1 ∧
      (KerEngine.score_method expq method logs).r_risk_harm =
        PestKernel.fclamp (0.2 * 0.5 + 0.2 * 0.5 +
          (if method.lethal then 0.3 else 0) +
          (if method.chemical then 0.4 else 0)) 0 1) := by
  obtain ⟨ht0, he0, het⟩ := caseTotals_inv method logs
  refine ⟨?_, ?_, ?_, ?_, ?_⟩
  · simp only [KerEngine.score_method]
    by_cases ht : (KerEngine.caseTotals method logs).1 = 0
    · simp only [if_pos ht]
      norm_num
    · have htpos : 0 < (KerEngine.caseTotals method logs).1 :=
        lt_of_le_of_ne ht0 (Ne.symm ht)
      simp only [if_neg ht, if_pos htpos]
      have havg0 : 0 ≤ (KerEngine.caseTotals method logs).2.1 /
          (KerEngine.caseTotals method logs).1 := div_nonneg he0 ht0
      have havg1 : (KerEngine.caseTotals method logs).2.1 /
          (KerEngine.caseTotals method logs).1 ≤ 1 :=
        (div_le_one htpos).mpr het
      have hfc := fclamp01_mem (1 - expq (-(KerEngine.caseTotals method logs).1 / 10))
      constructor
      · nlinarith [mul_nonneg (mul_nonneg hfc.1 havg0)
          (le_of_lt htpos), mul_nonneg hfc.1 havg0]
      · nlinarith [mul_le_one₀ hfc.2 havg0 havg1, mul_nonneg hfc.1 havg0]
  · simp only [KerEngine.score_method]
    exact fclamp01_mem _
  · simp only [KerEngine.score_method]
    exact fclamp01_mem _
  · unfold KerEngine.score_method
    rw [caseTotals_filter]
  · intro hnil
    have hzero : KerEngine.caseTotals method logs = (0, 0, 0, 0) := by
      unfold KerEngine.caseTotals
      rw [hnil]
      rfl
    simp only [KerEngine.score_method, hzero]
    norm_num

/-- Witness for C10: the no-matching-log conclusion at a concrete method and
the empty log list. -/
theorem engine_score_method_spec_witness :
    (KerEngine.score_method (fun _ => 1) wEngMethod []).k_knowledge = 0.6 ∧
    (KerEngine.score_method (fun _ => 1) wEngMethod []).e_eco_impact =
      PestKernel.fclamp (0.5 +
        (match wEngMethod.«class» with
          | "exclusion" | "sanitation" | "habitat_mod" => (0.3 : ℚ)
          | _ => 0.1) +
        0.2 * (1 - 0.5) + 0.2 * (1 - 0.5) -
        (if wEngMethod.lethal then 0.3 else 0) -
        (if wEngMethod.chemical then 0.6 else 0)) 0 1 ∧
    (KerEngine.score_method (fun _ => 1) wEngMethod []).r_risk_harm =
      PestKernel.fclamp (0.2 * 0.5 + 0.2 * 0.5 +
        (if wEngMethod.lethal then 0.3 else 0) +
        (if wEngMethod.chemical then 0.4 else 0)) 0 1 :=
  (engine_score_method_spec (fun _ => 1) wEngMethod []).2.2.2.2 rfl

/-- Splitting a shifted `map` over `range (n+1)` into its head and shifted
tail. -/
lemma map_range_shift {α : Type} (f : ℕ → α) (k n : ℕ) :
    (List.range (n + 1)).map (fun i => f (k + i)) =
    f k :: (List.range n).map (fun i => f (k + 1 + i)) := by
  rw [List.range_succ_eq_map, List.map_cons, List.map_map]
  refine congrArg₂ _ (congrArg f (Nat.add_zero k)) ?_
  have hfun : ((fun i => f (k + i)) ∘ Nat.succ) = fun i => f (k + 1 + i) :=
    funext fun i => congrArg f (by omega)
  rw [hfun]

/-- The `times_days` version of `map_range_shift`. -/
lemma range_shift_cons (k n : ℕ) :
    (List.range (n + 1)).map (fun i => k + i) =
    k :: (List.range n).map (fun i => k + 1 + i) :=
  map_range_shift (fun i => i) k n

/-- Splitting a shifted `any` over `range (n+1)` into its head and shifted
tail. -/
lemma any_range_shift (f : ℕ → Bool) (k n : ℕ) :
    (List.range (n + 1)).any (fun i => f (k + i)) =
    (f k || (List.range n).any (fun i => f (k + 1 + i))) := by
  rw [List.range_succ_eq_map, List.any_cons, List.any_map]
  refine congrArg₂ _ (congrArg f (Nat.add_zero k)) ?_
  have hfun : ((fun i => f (k + i)) ∘ Nat.succ) = fun i => f (k + 1 + i) :=
    funext fun i => congrArg f (by omega)
  rw [hfun]

/-- Characterization of the day loop: starting at any day with the loop state
of that day, it appends exactly one entry per remaining day to each parallel
vector and latches the violation bit over those days. -/
lemma simLoop_eq (cosq : ℚ → ℚ) (piq : ℚ) (ctx : PestKernel.PestContext)
    (species : PestKernel.PestSpeciesModel) (cfg : PestKernel.SimulationConfig)
    (m : PestKernel.ControlMults) :
    ∀ (fuel day : ℕ) (acc : PestKernel.SimAcc),
    PestKernel.simLoop cosq piq ctx species cfg m day fuel
      (PestKernel.stateAt cosq piq ctx species m day).1
      (PestKernel.stateAt cosq piq ctx species m day).2.1
      (PestKernel.stateAt cosq piq ctx species m day).2.2 acc =
    { times := acc.times ++ (List.range (fuel + 1)).map (fun i => day + i)
      n := acc.n ++ (List.range (fuel + 1)).map
        (fun i => PestKernel.nAt cosq piq ctx species m (day + i))
      d := acc.d ++ (List.range (fuel + 1)).map
        (fun i => PestKernel.dAt cosq piq ctx species m (day + i))
      e := acc.e ++ (List.range (fuel + 1)).map
        (fun i => PestKernel.eAt cosq piq ctx species m (day + i))
      rp := acc.rp ++ (List.range (fuel + 1)).map
        (fun i => PestKernel.rpAt cosq piq ctx species m (day + i))
      rd := acc.rd ++ (List.range (fuel + 1)).map
        (fun i => PestKernel.rdAt cosq piq ctx species m (day + i))
      re := acc.re ++ (List.range (fuel + 1)).map
        (fun i => PestKernel.reAt cosq piq ctx species m (day + i))
      v := acc.v ++ (List.range (fuel + 1)).map
        (fun i => PestKernel.vAtDay cosq piq ctx species cfg m (day + i))
      violated := acc.violated || (List.range (fuel + 1)).any
        (fun i => PestKernel.violAtDay cosq piq ctx species cfg m (day + i)) } := by
  intro fuel
  induction fuel with
  | zero =>
    intro day acc
    simp [PestKernel.simLoop, PestKernel.pushDay, PestKernel.nAt,
      PestKernel.dAt, PestKernel.eAt, PestKernel.rpAt, PestKernel.rdAt,
      PestKernel.reAt, PestKernel.vAtDay, PestKernel.violAtDay,
      PestKernel.vOf, PestKernel.violAt, List.range_succ_eq_map,
      List.range_zero]
  | succ fuel ih =>
    intro day acc
    simp only [PestKernel.simLoop]
    have hs : PestKernel.updateState cosq piq ctx species m day
        (PestKernel.stateAt cosq piq ctx species m day).1
        (PestKernel.stateAt cosq piq ctx species m day).2.1
        (PestKernel.stateAt cosq piq ctx species m day).2.2 =
        PestKernel.stateAt cosq piq ctx species m (day + 1) := rfl
    rw [hs, ih (day + 1) (PestKernel.pushDay species cfg day
      (PestKernel.stateAt cosq piq ctx species m day).1
      (PestKernel.stateAt cosq piq ctx species m day).2.1
      (PestKernel.stateAt cosq piq ctx species m day).2.2 acc)]
    rw [map_range_shift (PestKernel.nAt cosq piq ctx species m) day (fuel + 1),
      map_range_shift (PestKernel.dAt cosq piq ctx species m) day (fuel + 1),
      map_range_shift (PestKernel.eAt cosq piq ctx species m) day (fuel + 1),
      map_range_shift (PestKernel.rpAt cosq piq ctx species m) day (fuel + 1),
      map_range_shift (PestKernel.rdAt cosq piq ctx species m) day (fuel + 1),
      map_range_shift (PestKernel.reAt cosq piq ctx species m) day (fuel + 1),
      map_range_shift (PestKernel.vAtDay cosq piq ctx species cfg m) day (fuel + 1),
      range_shift_cons day (fuel + 1),
      any_range_shift (PestKernel.violAtDay cosq piq ctx species cfg m) day (fuel + 1)]
    simp [PestKernel.pushDay, PestKernel.nAt, PestKernel.dAt, PestKernel.eAt,
      PestKernel.rpAt, PestKernel.rdAt, PestKernel.reAt, PestKernel.vAtDay,
      PestKernel.violAtDay, PestKernel.vOf, PestKernel.violAt,
      List.append_assoc, Bool.or_assoc]

/-- Characterization of `simulate_pest_risk`: every output vector is the map
of its per-day value over `range (H+1)`, and the violation bit is the
disjunction of the per-day hard-limit tests. -/
lemma simulate_pest_risk_eq (cosq : ℚ → ℚ) (piq : ℚ)
    (ctx : PestKernel.PestContext) (species : PestKernel.PestSpeciesModel)
    (plan : PestKernel.InterventionPlan) (cfg : PestKernel.SimulationConfig) :
    PestKernel.simulate_pest_risk cosq piq ctx species plan cfg =
    { state :=
      { times_days := List.range (max plan.horizon_days 1 + 1)
        abundance := (List.range (max plan.horizon_days 1 + 1)).map
          (PestKernel.nAt cosq piq ctx species (PestKernel.controlMults plan.actions))
        damage_metric := (List.range (max plan.horizon_days 1 + 1)).map
          (PestKernel.dAt cosq piq ctx species (PestKernel.controlMults plan.actions))
        eco_metric := (List.range (max plan.horizon_days 1 + 1)).map
          (PestKernel.eAt cosq piq ctx species (PestKernel.controlMults plan.actions))
        r_pest := (List.range (max plan.horizon_days 1 + 1)).map
          (PestKernel.rpAt cosq piq ctx species (PestKernel.controlMults plan.actions))
        r_damage := (List.range (max plan.horizon_days 1 + 1)).map
          (PestKernel.rdAt cosq piq ctx species (PestKernel.controlMults plan.actions))
        r_eco := (List.range (max plan.horizon_days 1 + 1)).map
          (PestKernel.reAt cosq piq ctx species (PestKernel.controlMults plan.actions))
        residual_v := (List.range (max plan.horizon_days 1 + 1)).map
          (PestKernel.vAtDay cosq piq ctx species cfg (PestKernel.controlMults plan.actions)) }
      violated_hard_limit := (List.range (max plan.horizon_days 1 + 1)).any
        (PestKernel.violAtDay cosq piq ctx species cfg (PestKernel.controlMults plan.actions)) } := by
  unfold PestKernel.simulate_pest_risk
  have h : PestKernel.simLoop cosq piq ctx species cfg
      (PestKernel.controlMults plan.actions) 0 (max plan.horizon_days 1) 1 0 0
      { times := [], n := [], d := [], e := [], rp := [], rd := [], re := [],
        v := [], violated := false } =
      _ :=
    simLoop_eq cosq piq ctx species cfg (PestKernel.controlMults plan.actions)
      (max plan.horizon_days 1) 0
      { times := [], n := [], d := [], e := [], rp := [], rd := [], re := [],
        v := [], violated := false }
  dsimp only
  rw [h]
  simp [Nat.zero_add]

/-- The simulator's clamp lands in `[0, 1]`. -/
lemma clamp01_mem (x : ℚ) :
    0 ≤ PestKernel.clamp01 x ∧ PestKernel.clamp01 x ≤ 1 := by
  unfold PestKernel.clamp01
  split_ifs <;> constructor <;> linarith

/-- The simulator's clamp is the identity on `[0, 1]`. -/
lemma clamp01_of_bounds {x : ℚ} (h0 : 0 ≤ x) (h1 : x ≤ 1) :
    PestKernel.clamp01 x = x := by
  unfold PestKernel.clamp01
  split_ifs <;> linarith

/-- Rust's `clamp(0.0, 1.0)` agrees with the helper `clamp01`. -/
lemma fclamp_eq_clamp01 (x : ℚ) :
    PestKernel.fclamp x 0 1 = PestKernel.clamp01 x := by
  unfold PestKernel.fclamp PestKernel.clamp01
  split_ifs <;> linarith

/-- Each normalized risk coordinate lands in `[0, 1]`. -/
lemma rCoord_mem (limit x : ℚ) :
    0 ≤ PestKernel.rCoord limit x ∧ PestKernel.rCoord limit x ≤ 1 :=
  clamp01_mem _

/-- C9: every simulation result has the seven §3 data-model arrays of length
H+1 with H = max(1, horizon_days), and each of the three normalized risk
coordinates lies in [0,1] at every day. -/
theorem simulate_pest_risk_invariants (cosq : ℚ → ℚ) (piq : ℚ)
    (ctx : PestKernel.PestContext) (species : PestKernel.PestSpeciesModel)
    (plan : PestKernel.InterventionPlan) (cfg : PestKernel.SimulationConfig) :
    ((PestKernel.simulate_pest_risk cosq piq ctx species plan cfg).state.abundance.length =
        max plan.horizon_days 1 + 1 ∧
      (PestKernel.simulate_pest_risk cosq piq ctx species plan cfg).state.damage_metric.length =
        max plan.horizon_days 1 + 1 ∧
      (PestKernel.simulate_pest_risk cosq piq ctx species plan cfg).state.eco_metric.length =
        max plan.horizon_days 1 + 1 ∧
      (PestKernel.simulate_pest_risk cosq piq ctx species plan cfg).state.r_pest.length =
        max plan.horizon_days 1 + 1 ∧
      (PestKernel.simulate_pest_risk cosq piq ctx species plan cfg).state.r_damage.length =
        max plan.horizon_days 1 + 1 ∧
      (PestKernel.simulate_pest_risk cosq piq ctx species plan cfg).state.r_eco.length =
        max plan.horizon_days 1 + 1 ∧
      (PestKernel.simulate_pest_risk cosq piq ctx species plan cfg).state.residual_v.length =
        max plan.horizon_days 1 + 1) ∧
    (∀ x ∈ (PestKernel.simulate_pest_risk cosq piq ctx species plan cfg).state.r_pest,
      0 ≤ x ∧ x ≤ 1) ∧
    (∀ x ∈ (PestKernel.simulate_pest_risk cosq piq ctx species plan cfg).state.r_damage,
      0 ≤ x ∧ x ≤ 1) ∧
    (∀ x ∈ (PestKernel.simulate_pest_risk cosq piq ctx species plan cfg).state.r_eco,
      0 ≤ x ∧ x ≤ 1) := by
  rw [simulate_pest_risk_eq]
  refine ⟨⟨?_, ?_, ?_, ?_, ?_, ?_, ?_⟩, ?_, ?_, ?_⟩
  · simp
  · simp
  · simp
  · simp
  · simp
  · simp
  · simp
  · intro x hx
    simp only [List.mem_map] at hx
    obtain ⟨d, -, rfl⟩ := hx
    exact rCoord_mem _ _
  · intro x hx
    simp only [List.mem_map] at hx
    obtain ⟨d, -, rfl⟩ := hx
    exact rCoord_mem _ _
  · intro x hx
    simp only [List.mem_map] at hx
    obtain ⟨d, -, rfl⟩ := hx
    exact rCoord_mem _ _

/-- On the witness fixture, day 0's pest coordinate 1/10 is in the output. -/
lemma wSim_rp_mem :
    (1/10 : ℚ) ∈ (PestKernel.simulate_pest_risk (fun _ => 0) 0 PestKernel.wCtx
      PestKernel.wSpecies PestKernel.wPlan PestKernel.wCfg).state.r_pest := by
  rw [simulate_pest_risk_eq]
  dsimp only
  have hval : PestKernel.rpAt (fun _ => 0) 0 PestKernel.wCtx PestKernel.wSpecies
      (PestKernel.controlMults PestKernel.wPlan.actions) 0 = 1/10 := by
    norm_num [PestKernel.rpAt, PestKernel.stateAt, PestKernel.rCoord,
      PestKernel.clamp01, PestKernel.wSpecies]
  rw [← hval]
  exact List.mem_map_of_mem _ (by simp)

/-- Witness for C9: the abundance length equation and one membership
instance at a concrete simulation. -/
theorem simulate_pest_risk_invariants_witness :
    (PestKernel.simulate_pest_risk (fun _ => 0) 0 PestKernel.wCtx
      PestKernel.wSpecies PestKernel.wPlan PestKernel.wCfg).state.abundance.length =
      max PestKernel.wPlan.horizon_days 1 + 1 ∧
    (0 ≤ (1/10 : ℚ) ∧ (1/10 : ℚ) ≤ 1) :=
  ⟨(simulate_pest_risk_invariants (fun _ => 0) 0 PestKernel.wCtx
      PestKernel.wSpecies PestKernel.wPlan PestKernel.wCfg).1.1,
   (simulate_pest_risk_invariants (fun _ => 0) 0 PestKernel.wCtx
      PestKernel.wSpecies PestKernel.wPlan PestKernel.wCfg).2.1 (1/10) wSim_rp_mem⟩

/-- Counterexample to C4 as stated: with `horizon_days = 0` the simulator
emits arrays of length 2 (days 0 and 1), not length 1, because the horizon
is floored to 1 before the loop. -/
theorem simulate_horizon_zero_counterexample :
    (PestKernel.simulate_pest_risk (fun _ => 0) 0 PestKernel.wCtx
      PestKernel.wSpecies PestKernel.wPlan0 PestKernel.wCfg).state.abundance.length = 2 ∧
    ¬ (PestKernel.simulate_pest_risk (fun _ => 0) 0 PestKernel.wCtx
      PestKernel.wSpecies PestKernel.wPlan0 PestKernel.wCfg).state.abundance.length = 1 := by
  rw [simulate_pest_risk_eq]
  constructor
  · simp [PestKernel.wPlan0]
  · simp [PestKernel.wPlan0]

/-- C4 (amended): with `plan.horizon_days = 0` the floored horizon is
H = max(1, 0) = 1 and every output array of the returned `PestRiskState` has
length H + 1 = 2 (the day-0 and day-1 states). -/
theorem simulate_horizon_zero_lengths (cosq : ℚ → ℚ) (piq : ℚ)
    (ctx : PestKernel.PestContext) (species : PestKernel.PestSpeciesModel)
    (plan : PestKernel.InterventionPlan) (cfg : PestKernel.SimulationConfig)
    (h : plan.horizon_days = 0) :
    (PestKernel.simulate_pest_risk cosq piq ctx species plan cfg).state.times_days.length = 2 ∧
    (PestKernel.simulate_pest_risk cosq piq ctx species plan cfg).state.abundance.length = 2 ∧
    (PestKernel.simulate_pest_risk cosq piq ctx species plan cfg).state.damage_metric.length = 2 ∧
    (PestKernel.simulate_pest_risk cosq piq ctx species plan cfg).state.eco_metric.length = 2 ∧
    (PestKernel.simulate_pest_risk cosq piq ctx species plan cfg).state.r_pest.length = 2 ∧
    (PestKernel.simulate_pest_risk cosq piq ctx species plan cfg).state.r_damage.length = 2 ∧
    (PestKernel.simulate_pest_risk cosq piq ctx species plan cfg).state.r_eco.length = 2 ∧
    (PestKernel.simulate_pest_risk cosq piq ctx species plan cfg).state.residual_v.length = 2 := by
  rw [simulate_pest_risk_eq]
  refine ⟨?_, ?_, ?_, ?_, ?_, ?_, ?_, ?_⟩ <;> simp [h]

/-- Witness for the amended C4 at the concrete zero-horizon plan. -/
theorem simulate_horizon_zero_lengths_witness :
    (PestKernel.simulate_pest_risk (fun _ => 0) 0 PestKernel.wCtx
      PestKernel.wSpecies PestKernel.wPlan0 PestKernel.wCfg).state.times_days.length = 2 ∧
    (PestKernel.simulate_pest_risk (fun _ => 0) 0 PestKernel.wCtx
      PestKernel.wSpecies PestKernel.wPlan0 PestKernel.wCfg).state.abundance.length = 2 ∧
    (PestKernel.simulate_pest_risk (fun _ => 0) 0 PestKernel.wCtx
      PestKernel.wSpecies PestKernel.wPlan0 PestKernel.wCfg).state.damage_metric.length = 2 ∧
    (PestKernel.simulate_pest_risk (fun _ => 0) 0 PestKernel.wCtx
      PestKernel.wSpecies PestKernel.wPlan0 PestKernel.wCfg).state.eco_metric.length = 2 ∧
    (PestKernel.simulate_pest_risk (fun _ => 0) 0 PestKernel.wCtx
      PestKernel.wSpecies PestKernel.wPlan0 PestKernel.wCfg).state.r_pest.length = 2 ∧
    (PestKernel.simulate_pest_risk (fun _ => 0) 0 PestKernel.wCtx
      PestKernel.wSpecies PestKernel.wPlan0 PestKernel.wCfg).state.r_damage.length = 2 ∧
    (PestKernel.simulate_pest_risk (fun _ => 0) 0 PestKernel.wCtx
      PestKernel.wSpecies PestKernel.wPlan0 PestKernel.wCfg).state.r_eco.length = 2 ∧
    (PestKernel.simulate_pest_risk (fun _ => 0) 0 PestKernel.wCtx
      PestKernel.wSpecies PestKernel.wPlan0 PestKernel.wCfg).state.residual_v.length = 2 :=
  simulate_horizon_zero_lengths (fun _ => 0) 0 PestKernel.wCtx
    PestKernel.wSpecies PestKernel.wPlan0 PestKernel.wCfg rfl

/-- For an amplitude already in `[0, 1]`, the code's seasonal factor is the
spec's. -/
lemma season_eq (cosq : ℚ → ℚ) (piq : ℚ) {amp : ℚ} (phase : ℚ)
    (h0 : 0 ≤ amp) (h1 : amp ≤ 1) (d : ℕ) :
    PestKernel.seasonality_factor cosq piq d amp phase =
    PestKernel.spec_season cosq piq amp phase d := by
  unfold PestKernel.seasonality_factor PestKernel.spec_season
  rw [clamp01_of_bounds h0 h1]

/-- The aggregation fold factors through the spec's products and sum, from
any starting accumulator. -/
lemma controlStep_foldl (l : List PestKernel.ControlAction) :
    ∀ acc : PestKernel.ControlMults,
    l.foldl PestKernel.controlStep acc =
    { arrival_mult := acc.arrival_mult * PestKernel.spec_arrival_mult l
      repro_mult := acc.repro_mult * PestKernel.spec_repro_mult l
      damage_mult := acc.damage_mult * PestKernel.spec_damage_mult l
      eco_base := acc.eco_base + PestKernel.spec_eco_base l } := by
  induction l with
  | nil =>
    intro acc
    simp [PestKernel.spec_arrival_mult, PestKernel.spec_repro_mult,
      PestKernel.spec_damage_mult, PestKernel.spec_eco_base]
  | cons a tl ih =>
    intro acc
    rw [List.foldl_cons, ih (PestKernel.controlStep acc a)]
    simp only [PestKernel.controlStep, PestKernel.spec_arrival_mult,
      PestKernel.spec_repro_mult, PestKernel.spec_damage_mult,
      PestKernel.spec_eco_base, List.map_cons, List.prod_cons, List.sum_cons,
      fclamp_eq_clamp01, PestKernel.ControlMults.mk.injEq]
    refine ⟨?_, ?_, ?_, ?_⟩ <;> ring

/-- The simulator's aggregate control scalars are exactly the spec's
products and sum. -/
lemma controlMults_eq (actions : List PestKernel.ControlAction) :
    PestKernel.controlMults actions =
    { arrival_mult := PestKernel.spec_arrival_mult actions
      repro_mult := PestKernel.spec_repro_mult actions
      damage_mult := PestKernel.spec_damage_mult actions
      eco_base := PestKernel.spec_eco_base actions } := by
  unfold PestKernel.controlMults
  rw [controlStep_foldl]
  simp

/-- With the amplitude in `[0, 1]`, the loop state of the simulator follows
the spec's recurrence exactly. -/
lemma stateAt_eq_spec (cosq : ℚ → ℚ) (piq : ℚ)
    (ctx : PestKernel.PestContext) (species : PestKernel.PestSpeciesModel)
    (actions : List PestKernel.ControlAction)
    (h0 : 0 ≤ species.seasonality_amp) (h1 : species.seasonality_amp ≤ 1) :
    ∀ d, PestKernel.stateAt cosq piq ctx species
      (PestKernel.controlMults actions) d =
      PestKernel.spec_state cosq piq ctx species actions d := by
  intro d
  induction d with
  | zero => rfl
  | succ d ih =>
    show PestKernel.updateState cosq piq ctx species
        (PestKernel.controlMults actions) d _ _ _ = _
    rw [ih]
    simp only [PestKernel.updateState, PestKernel.spec_state,
      controlMults_eq, fclamp_eq_clamp01, season_eq cosq piq
        species.seasonality_phase h0 h1 d]
    simp only [Prod.mk.injEq]
    refine ⟨?_, ?_, ?_⟩
    · rw [max_comm 1 species.abundance_hard_limit, max_comm 0 _]
    · rw [max_comm 0 _]
    · rw [max_comm 1 species.eco_hard_limit, max_comm 0 _, min_comm]

/-- C1: for a species whose `seasonality_amp` lies in [0,1], the simulator
starts from (N₀, D₀, E₀) = (1, 0, 0) and its abundance, damage and eco
trajectories follow the spec's §4.3 update equations exactly: each output
array is the day-indexed map of the spec recurrence `spec_state`. -/
theorem simulate_follows_spec_equations (cosq : ℚ → ℚ) (piq : ℚ)
    (ctx : PestKernel.PestContext) (species : PestKernel.PestSpeciesModel)
    (plan : PestKernel.InterventionPlan) (cfg : PestKernel.SimulationConfig)
    (h0 : 0 ≤ species.seasonality_amp) (h1 : species.seasonality_amp ≤ 1) :
    (PestKernel.simulate_pest_risk cosq piq ctx species plan cfg).state.abundance =
      (List.range (max plan.horizon_days 1 + 1)).map
        (fun d => (PestKernel.spec_state cosq piq ctx species plan.actions d).1) ∧
    (PestKernel.simulate_pest_risk cosq piq ctx species plan cfg).state.damage_metric =
      (List.range (max plan.horizon_days 1 + 1)).map
        (fun d => (PestKernel.spec_state cosq piq ctx species plan.actions d).2.1) ∧
    (PestKernel.simulate_pest_risk cosq piq ctx species plan cfg).state.eco_metric =
      (List.range (max plan.horizon_days 1 + 1)).map
        (fun d => (PestKernel.spec_state cosq piq ctx species plan.actions d).2.2) := by
  rw [simulate_pest_risk_eq]
  refine ⟨?_, ?_, ?_⟩ <;>
  · apply List.map_congr_left
    intro d _hd
    simp only [PestKernel.nAt, PestKernel.dAt, PestKernel.eAt,
      stateAt_eq_spec cosq piq ctx species plan.actions h0 h1 d]

/-- Witness for C1 at a concrete context, species, plan and config. -/
theorem simulate_follows_spec_equations_witness :
    (PestKernel.simulate_pest_risk (fun _ => 0) 0 PestKernel.wCtx
      PestKernel.wSpecies PestKernel.wPlan PestKernel.wCfg).state.abundance =
      (List.range (max PestKernel.wPlan.horizon_days 1 + 1)).map
        (fun d => (PestKernel.spec_state (fun _ => 0) 0 PestKernel.wCtx
          PestKernel.wSpecies PestKernel.wPlan.actions d).1) ∧
    (PestKernel.simulate_pest_risk (fun _ => 0) 0 PestKernel.wCtx
      PestKernel.wSpecies PestKernel.wPlan PestKernel.wCfg).state.damage_metric =
      (List.range (max PestKernel.wPlan.horizon_days 1 + 1)).map
        (fun d => (PestKernel.spec_state (fun _ => 0) 0 PestKernel.wCtx
          PestKernel.wSpecies PestKernel.wPlan.actions d).2.1) ∧
    (PestKernel.simulate_pest_risk (fun _ => 0) 0 PestKernel.wCtx
      PestKernel.wSpecies PestKernel.wPlan PestKernel.wCfg).state.eco_metric =
      (List.range (max PestKernel.wPlan.horizon_days 1 + 1)).map
        (fun d => (PestKernel.spec_state (fun _ => 0) 0 PestKernel.wCtx
          PestKernel.wSpecies PestKernel.wPlan.actions d).2.2) :=
  simulate_follows_spec_equations (fun _ => 0) 0 PestKernel.wCtx
    PestKernel.wSpecies PestKernel.wPlan PestKernel.wCfg
    (by norm_num [PestKernel.wSpecies]) (by norm_num [PestKernel.wSpecies])

/-- Counterexample to C5 as stated: at `seasonality_amp = 2` (with a cosine
stub returning 1 and phase 0) the code computes `1 + 2·cos = 3`, while the
claimed clamped formula yields `1 + clamp01(2)·cos = 2`. -/
theorem seasonality_factor_claim_counterexample :
    PestKernel.seasonality_factor (fun _ => 1) 0 0 2 0 = 3 ∧
    PestKernel.spec_season (fun _ => 1) 0 2 0 0 = 2 ∧
    PestKernel.seasonality_factor (fun _ => 1) 0 0 2 0 ≠
      PestKernel.spec_season (fun _ => 1) 0 2 0 0 := by
  norm_num [PestKernel.seasonality_factor, PestKernel.spec_season,
    PestKernel.clamp01]

/-- C5 (amended): the simulator's seasonal factor is 1 whenever
`seasonality_amp ≤ 0` and otherwise `1 + seasonality_amp · cos(2π·d/365 +
phase)` with the raw, unclamped amplitude; it agrees with the spec's clamped
formula exactly when the amplitude lies in [0, 1]. -/
theorem seasonality_factor_spec (cosq : ℚ → ℚ) (piq : ℚ) (d : ℕ)
    (amp phase : ℚ) :
    (amp ≤ 0 → PestKernel.seasonality_factor cosq piq d amp phase = 1) ∧
    (0 < amp → PestKernel.seasonality_factor cosq piq d amp phase =
      1 + amp * cosq (2 * piq * ((d : ℚ) / 365) + phase)) ∧
    (0 ≤ amp → amp ≤ 1 → PestKernel.seasonality_factor cosq piq d amp phase =
      PestKernel.spec_season cosq piq amp phase d) := by
  refine ⟨?_, ?_, ?_⟩
  · intro h
    simp [PestKernel.seasonality_factor, h]
  · intro h
    simp [PestKernel.seasonality_factor, not_le.mpr h]
  · intro h0 h1
    exact season_eq cosq piq phase h0 h1 d

/-- Witness for the amended C5: the positive-amplitude branch at 1/2 and the
nonpositive branch at 0. -/
theorem seasonality_factor_spec_witness :
    PestKernel.seasonality_factor (fun _ => 1) 0 0 (1/2) 0 = 1 + (1/2 : ℚ) * 1 ∧
    PestKernel.seasonality_factor (fun _ => 1) 0 0 0 0 = 1 :=
  ⟨(seasonality_factor_spec (fun _ => 1) 0 0 (1/2) 0).2.1 (by norm_num),
   (seasonality_factor_spec (fun _ => 1) 0 0 0 0).1 le_rfl⟩
